import Mathlib

/-!
Verification development for handlebars-cli (src/main.rs).

The repository is a four-step CLI pipeline: parse the properties argument as
JSON, check that the template path exists, register the template file with a
strict-mode handlebars registry, render the template against the properties,
then print the result (or an error).  The pipeline and `main` are embedded
from `src/main.rs`; the external collaborators (the serde_json parser and the
handlebars engine) are modelled from the spec's collaborator contract.
-/

set_option maxRecDepth 4000

/-- JSON values, mirroring `serde_json::value::Value`. -/
inductive Json where
  | null
  | bool (b : Bool)
  | num (n : Int)
  | str (s : String)
  | arr (elems : List Json)
  | obj (fields : List (String × Json))

/- Characters that the surrounding tooling treats specially are built by
code point. -/

def lbraceChar : Char := Char.ofNat 123

def rbraceChar : Char := Char.ofNat 125

def dquoteChar : Char := Char.ofNat 34

def bslashChar : Char := Char.ofNat 92

def squoteChar : Char := Char.ofNat 39

def squoteStr : String := String.singleton squoteChar

def isWsChar (c : Char) : Bool :=
  c = ' ' || c = Char.ofNat 9 || c = Char.ofNat 10 || c = Char.ofNat 13

def skipWs : List Char → List Char
  | [] => []
  | c :: cs => if isWsChar c then skipWs cs else c :: cs

def unescapeChar (c : Char) : Option Char :=
  if c = dquoteChar then some dquoteChar
  else if c = bslashChar then some bslashChar
  else if c = '/' then some '/'
  else if c = 'n' then some (Char.ofNat 10)
  else if c = 't' then some (Char.ofNat 9)
  else if c = 'r' then some (Char.ofNat 13)
  else none

/-- Modelled from the spec: the string-literal scanner of the external JSON
parser (serde_json, not part of this repository).  Consumes characters up to
the closing double quote, handling the simple escapes. -/
def parseStringBody : List Char → Except String (List Char × List Char)
  | [] => .error "unexpected end of input in string"
  | c :: cs =>
    if c = dquoteChar then .ok ([], cs)
    else if c = bslashChar then
      match cs with
      | [] => .error "unexpected end of input in escape"
      | e :: cs2 =>
        match unescapeChar e with
        | some ch =>
          match parseStringBody cs2 with
          | .ok (s, r) => .ok (ch :: s, r)
          | .error msg => .error msg
        | none => .error "invalid escape"
    else
      match parseStringBody cs with
      | .ok (s, r) => .ok (c :: s, r)
      | .error msg => .error msg

def dropPrefixChars : List Char → List Char → Option (List Char)
  | [], cs => some cs
  | _ :: _, [] => none
  | p :: ps, c :: cs => if c = p then dropPrefixChars ps cs else none

def takeDigits : List Char → (List Char × List Char)
  | [] => ([], [])
  | c :: cs =>
    if c.isDigit then
      let (d, r) := takeDigits cs
      (c :: d, r)
    else ([], c :: cs)

def digitsToNat (ds : List Char) : Nat :=
  ds.foldl (fun a c => a * 10 + (c.toNat - 48)) 0

/-- Modelled from the spec: integer-literal parsing of the external JSON
parser (fractions and exponents are outside the model). -/
def parseNumberFrom (cs : List Char) : Except String (Json × List Char) :=
  match cs with
  | [] => .error "unexpected end of input"
  | c :: rest =>
    if c = '-' then
      match takeDigits rest with
      | ([], _) => .error "expected digits after minus sign"
      | (ds, r) => .ok (.num (-(Int.ofNat (digitsToNat ds))), r)
    else
      match takeDigits (c :: rest) with
      | ([], _) => .error "expected value"
      | (ds, r) => .ok (.num (Int.ofNat (digitsToNat ds)), r)

mutual

/-- Modelled from the spec: the external JSON parser accepts any JSON value
(object, array, or scalar).  Fuel-indexed recursive descent. -/
def parseValue : Nat → List Char → Except String (Json × List Char)
  | 0, _ => .error "recursion limit exceeded"
  | fuel + 1, cs =>
    match skipWs cs with
    | [] => .error "unexpected end of input"
    | c :: rest =>
      if c = dquoteChar then
        match parseStringBody rest with
        | .ok (s, r) => .ok (.str (String.mk s), r)
        | .error msg => .error msg
      else if c = lbraceChar then
        match skipWs rest with
        | [] => .error "unexpected end of input in object"
        | d :: r2 =>
          if d = rbraceChar then .ok (.obj [], r2)
          else
            match parseMembers fuel (d :: r2) with
            | .ok (fs, r) => .ok (.obj fs, r)
            | .error msg => .error msg
      else if c = '[' then
        match skipWs rest with
        | [] => .error "unexpected end of input in array"
        | d :: r2 =>
          if d = ']' then .ok (.arr [], r2)
          else
            match parseElems fuel (d :: r2) with
            | .ok (vs, r) => .ok (.arr vs, r)
            | .error msg => .error msg
      else
        match dropPrefixChars "null".data (c :: rest) with
        | some r => .ok (.null, r)
        | none =>
          match dropPrefixChars "true".data (c :: rest) with
          | some r => .ok (.bool true, r)
          | none =>
            match dropPrefixChars "false".data (c :: rest) with
            | some r => .ok (.bool false, r)
            | none =>
              if c = '-' || c.isDigit then parseNumberFrom (c :: rest)
              else .error "expected value"

/-- Modelled from the spec: JSON object members (`key : value` pairs). -/
def parseMembers : Nat → List Char → Except String (List (String × Json) × List Char)
  | 0, _ => .error "recursion limit exceeded"
  | fuel + 1, cs =>
    match skipWs cs with
    | [] => .error "unexpected end of input in object"
    | c :: rest =>
      if c = dquoteChar then
        match parseStringBody rest with
        | .error msg => .error msg
        | .ok (k, r) =>
          match skipWs r with
          | ':' :: r2 =>
            match parseValue fuel r2 with
            | .error msg => .error msg
            | .ok (v, r3) =>
              match skipWs r3 with
              | [] => .error "unexpected end of input in object"
              | c2 :: r4 =>
                if c2 = ',' then
                  match parseMembers fuel r4 with
                  | .ok (fs, r5) => .ok ((String.mk k, v) :: fs, r5)
                  | .error msg => .error msg
                else if c2 = rbraceChar then .ok ([(String.mk k, v)], r4)
                else .error "expected comma or end of object"
          | _ => .error "expected colon"
      else .error "key must be a string"

/-- Modelled from the spec: JSON array elements. -/
def parseElems : Nat → List Char → Except String (List Json × List Char)
  | 0, _ => .error "recursion limit exceeded"
  | fuel + 1, cs =>
    match parseValue fuel cs with
    | .error msg => .error msg
    | .ok (v, r) =>
      match skipWs r with
      | [] => .error "unexpected end of input in array"
      | c :: r2 =>
        if c = ',' then
          match parseElems fuel r2 with
          | .ok (vs, r3) => .ok (v :: vs, r3)
          | .error msg => .error msg
        else if c = ']' then .ok ([v], r2)
        else .error "expected comma or end of array"

end

/-- Modelled from the spec: `serde_json::Value::from_str` — parse a whole
string as a single JSON value, rejecting trailing garbage. -/
def Json.from_str (s : String) : Except String Json :=
  match parseValue (s.data.length + 1) s.data with
  | .error msg => .error msg
  | .ok (v, rest) =>
    if (skipWs rest).isEmpty then .ok v
    else .error "trailing characters"

example : Json.from_str "\x7b\x7d" = .ok (.obj []) := rfl

/-! ## The filesystem model

`PathBuf::exists` and the file read performed by
`Handlebars::register_template_file` are modelled over an explicit
association list from path strings to entries.  A path can be absent, be a
regular file with known contents, or exist without being readable as a
regular file (a directory, for instance). -/

inductive FsEntry where
  | absent
  | file (contents : String)
  | unreadable
deriving DecidableEq, Repr

def FileSystem : Type := List (String × FsEntry)

def FileSystem.entry (fs : FileSystem) (path : String) : FsEntry :=
  match List.lookup path fs with
  | some e => e
  | none => .absent

/-- `PathBuf::exists`: true for any present entry, readable or not. -/
def FileSystem.pathExists (fs : FileSystem) (path : String) : Bool :=
  match FileSystem.entry fs path with
  | .absent => false
  | _ => true

/-! ## The templating engine, modelled from the spec

Modelled from the spec: the external handlebars engine (not part of this
repository) exposes `compile` from template text and strict-mode `render`.
The model supports literal text and simple `\x7b\x7bname\x7d\x7d` variable
expressions; compilation fails on an opened expression with no closing
braces or with a malformed inner expression, and strict-mode rendering
fails on a variable not found among the properties. -/

inductive TemplateItem where
  | lit (s : String)
  | var (name : String)
deriving DecidableEq, Repr

def isIdentChar (c : Char) : Bool := c.isAlphanum || c = '_' || c = '.'

def trimWsChars (cs : List Char) : List Char :=
  ((cs.dropWhile isWsChar).reverse.dropWhile isWsChar).reverse

/-- Scan an opened expression for the closing double brace, returning the
expression body and the remaining input. -/
def splitExpr : List Char → Option (List Char × List Char)
  | [] => none
  | c :: cs =>
    if c = rbraceChar then
      match cs with
      | d :: cs2 =>
        if d = rbraceChar then some ([], cs2)
        else
          match splitExpr cs with
          | some (e, r) => some (c :: e, r)
          | none => none
      | [] => none
    else
      match splitExpr cs with
      | some (e, r) => some (c :: e, r)
      | none => none

/-- Modelled from the spec: template compilation by the external engine.
Fuel-indexed scan over the characters. -/
def compileAux : Nat → List Char → Except String (List TemplateItem)
  | 0, _ => .error "recursion limit exceeded"
  | _ + 1, [] => .ok []
  | fuel + 1, c :: cs =>
    if c = lbraceChar then
      match cs with
      | [] => .ok [.lit (String.singleton c)]
      | d :: cs2 =>
        if d = lbraceChar then
          match splitExpr cs2 with
          | none => .error "invalid handlebars syntax: expression is never closed"
          | some (expr, rest) =>
            let name := String.mk (trimWsChars expr)
            if name ≠ "" && name.data.all isIdentChar then
              match compileAux fuel rest with
              | .ok items => .ok (.var name :: items)
              | .error e => .error e
            else .error "invalid handlebars syntax: malformed expression"
        else
          match compileAux fuel cs with
          | .ok items => .ok (.lit (String.singleton c) :: items)
          | .error e => .error e
    else
      match compileAux fuel cs with
      | .ok items => .ok (.lit (String.singleton c) :: items)
      | .error e => .error e

def compileTemplate (s : String) : Except String (List TemplateItem) :=
  compileAux (s.data.length + 1) s.data

/-- Property lookup used during rendering: a simple name resolves against
the fields of a top-level JSON object. -/
def lookupProp (props : Json) (name : String) : Option Json :=
  match props with
  | .obj fields => List.lookup name fields
  | _ => none

/-- Modelled from the spec: how the engine prints a scalar property value
into the output (composite values are outside the model's claims). -/
def jsonOutput : Json → String
  | .null => ""
  | .bool b => toString b
  | .num n => toString n
  | .str s => s
  | .arr _ => "[array]"
  | .obj _ => "[object]"

/-- Modelled from the spec: rendering a compiled template.  In strict mode a
reference to a property that is not present is a hard failure; otherwise it
renders as empty output. -/
def renderTpl (strict : Bool) : List TemplateItem → Json → Except String String
  | [], _ => .ok ""
  | .lit s :: rest, props =>
    match renderTpl strict rest props with
    | .ok out => .ok (s ++ out)
    | .error e => .error e
  | .var n :: rest, props =>
    match lookupProp props n with
    | some v =>
      match renderTpl strict rest props with
      | .ok out => .ok (jsonOutput v ++ out)
      | .error e => .error e
    | none =>
      if strict then
        .error ("Variable " ++ String.singleton dquoteChar ++ n ++
          String.singleton dquoteChar ++ " not defined in strict mode")
      else
        match renderTpl strict rest props with
        | .ok out => .ok out
        | .error e => .error e

def templateReadError : String := "template file could not be read"

/-- The handlebars registry, mirroring `handlebars::Handlebars`. -/
structure Handlebars where
  strict_mode : Bool
  templates : List (String × List TemplateItem)

def Handlebars.new : Handlebars := { strict_mode := false, templates := [] }

def Handlebars.set_strict_mode (hb : Handlebars) (b : Bool) : Handlebars :=
  { hb with strict_mode := b }

/-- Modelled from the spec: `register_template_file` reads the file at the
path and compiles its contents; a failed read (the entry exists but is not a
readable regular file, or is absent) surfaces as a template error. -/
def Handlebars.register_template_file (hb : Handlebars) (fs : FileSystem)
    (name : String) (path : String) : Except String Handlebars :=
  match FileSystem.entry fs path with
  | .file contents =>
    match compileTemplate contents with
    | .ok t => .ok { hb with templates := (name, t) :: hb.templates }
    | .error e => .error e
  | _ => .error templateReadError

/-- Modelled from the spec: `render` looks the registered template up by
name and renders it under the registry's strict-mode setting. -/
def Handlebars.render (hb : Handlebars) (name : String) (props : Json) :
    Except String String :=
  match List.lookup name hb.templates with
  | some t => renderTpl hb.strict_mode t props
  | none => .error "template not found in registry"

/-! ## The pipeline, embedded from src/main.rs -/

/-- The error enumeration of `src/main.rs` (`enum Error`); each case carries
the contextual data of the Rust variant, with the engine diagnostics as
strings. -/
inductive Error where
  | PropsInvalidJson (source : String)
  | TemplateNotFound (path : String)
  | TemplateInvalid (source : String) (path : String)
  | TemplateRenderFailed (source : String) (path : String)
deriving DecidableEq, Repr

/-- The snafu `display` attribute of each variant of `enum Error`. -/
def Error.display : Error → String
  | .PropsInvalidJson source => "Unable to parse properties JSON: " ++ source
  | .TemplateNotFound path =>
    "Unable to read template from " ++ squoteStr ++ path ++ squoteStr ++ "."
  | .TemplateInvalid source path =>
    "File at " ++ squoteStr ++ path ++ squoteStr ++
      " was not a valid handlebars template: " ++ source
  | .TemplateRenderFailed source path =>
    "Template at " ++ squoteStr ++ path ++ squoteStr ++ " failed to render: " ++ source

/-- `execute_handlebars_templating` from `src/main.rs`: parse the properties
as JSON, check that the template path exists, register the template file
with a strict-mode registry, and render it against the properties. -/
def execute_handlebars_templating (fs : FileSystem) (raw_props : String)
    (raw_filename : String) : Except Error String :=
  match Json.from_str raw_props with
  | .error e => .error (.PropsInvalidJson e)
  | .ok props =>
    if FileSystem.pathExists fs raw_filename then
      let handlebars := Handlebars.set_strict_mode Handlebars.new true
      match Handlebars.register_template_file handlebars fs raw_filename raw_filename with
      | .error e => .error (.TemplateInvalid e raw_filename)
      | .ok hb =>
        match Handlebars.render hb raw_filename props with
        | .error e => .error (.TemplateRenderFailed e raw_filename)
        | .ok out => .ok out
    else .error (.TemplateNotFound raw_filename)

/-- The `USAGE` string of `src/main.rs`. -/
def USAGE : String :=
  "handlebars-cli — Template JSON properties into Handlebars templates from the CLI.\n\nUSAGE:\n    handlebars-cli <JSON> <TEMPLATE>\n    handlebars-cli --help\n\nPARAMETERS:\n    JSON: A set of valid JSON to use as properties to interpolate into the provided template file.\n    TEMPLATE: A path to a valid Handlebars template.\n\nFLAGS:\n    --help: Prints this usage text."

/-- The observable outcome of one process run: everything written to
standard output, everything written to standard error, and the exit code. -/
structure ProcResult where
  stdout : String
  stderr : String
  exitCode : Nat
deriving DecidableEq, Repr

/-- `main` from `src/main.rs`, over the arguments after the program name:
with fewer than two arguments it prints the usage text to standard error and
exits 1; otherwise it runs the pipeline on the first two arguments, printing
the result plus a newline to standard output on success (exit 0), or the
error display plus a newline to standard error on failure (exit 1). -/
def mainRun (fs : FileSystem) (args : List String) : ProcResult :=
  match args with
  | raw_props :: raw_filename :: _ =>
    match execute_handlebars_templating fs raw_props raw_filename with
    | .ok data => { stdout := data ++ "\n", stderr := "", exitCode := 0 }
    | .error err => { stdout := "", stderr := Error.display err ++ "\n", exitCode := 1 }
  | _ => { stdout := "", stderr := USAGE ++ "\n", exitCode := 1 }

/-- The variable names referenced by a template's compiled form, when it
compiles. -/
def compiledVarNames (contents : String) : Option (List String) :=
  match compileTemplate contents with
  | .ok items =>
    some (items.filterMap fun it =>
      match it with
      | .var n => some n
      | .lit _ => none)
  | .error _ => none

example :
    execute_handlebars_templating [("t.hbs", .file "Hello, \x7b\x7bname\x7d\x7d!")]
      "\x7b\"name\":\"World\"\x7d" "t.hbs" = .ok "Hello, World!" := rfl

example :
    ∃ e, execute_handlebars_templating [("t.hbs", .file "Hello, \x7b\x7bname\x7d\x7d!")]
      "\x7b\x7d" "t.hbs" = .error (.TemplateRenderFailed e "t.hbs") := ⟨_, rfl⟩

example : compiledVarNames "Hello, \x7b\x7bname\x7d\x7d!" = some ["name"] := rfl

example : ∃ e, Json.from_str "not-json" = .error e := ⟨_, rfl⟩

example : ∃ e, Json.from_str "--help" = .error e := ⟨_, rfl⟩

example : ∃ e, compileTemplate "Hello \x7b\x7bname" = .error e := ⟨_, rfl⟩

/-! ## Helper lemmas -/

/-- Strict-mode rendering fails whenever the template references a variable
that does not resolve among the properties. -/
lemma renderTpl_strict_missing (items : List TemplateItem) (props : Json) (n : String)
    (hmem : TemplateItem.var n ∈ items) (hnone : lookupProp props n = none) :
    ∃ e, renderTpl true items props = .error e := by
  induction items with
  | nil => cases hmem
  | cons it rest ih =>
    cases it with
    | lit s =>
      have hmem2 : TemplateItem.var n ∈ rest := by
        rcases List.mem_cons.mp hmem with heq | hmem2
        · cases heq
        · exact hmem2
      obtain ⟨e, he⟩ := ih hmem2
      exact ⟨e, by simp [renderTpl, he]⟩
    | var m =>
      cases h : lookupProp props m with
      | none =>
        exact ⟨"Variable " ++ String.singleton dquoteChar ++ m ++
          String.singleton dquoteChar ++ " not defined in strict mode",
          by simp [renderTpl, h]⟩
      | some v =>
        have hmem2 : TemplateItem.var n ∈ rest := by
          rcases List.mem_cons.mp hmem with heq | hmem2
          · obtain ⟨rfl⟩ := TemplateItem.var.inj heq
            rw [h] at hnone
            cases hnone
          · exact hmem2
        obtain ⟨e, he⟩ := ih hmem2
        exact ⟨e, by simp [renderTpl, h, he]⟩

/-! ## Claim theorems -/

/-- C1: for every parsed properties value and every existing template file
whose compiled form references a variable absent from the properties, the
pipeline fails with `TemplateRenderFailed` (strict mode forbids silently
rendering the missing reference as empty). -/
theorem strict_missing_property_render_fails
    (fs : FileSystem) (raw_props raw_filename contents : String)
    (props : Json) (ns : List String) (n : String)
    (hparse : Json.from_str raw_props = .ok props)
    (hfile : FileSystem.entry fs raw_filename = .file contents)
    (hvars : compiledVarNames contents = some ns)
    (hn : n ∈ ns)
    (hmissing : lookupProp props n = none) :
    ∃ e, execute_handlebars_templating fs raw_props raw_filename =
      .error (Error.TemplateRenderFailed e raw_filename) := by
  cases hc : compileTemplate contents with
  | error e =>
    rw [compiledVarNames, hc] at hvars
    cases hvars
  | ok items =>
    have hmem : TemplateItem.var n ∈ items := by
      rw [compiledVarNames, hc] at hvars
      have hfm := Option.some.inj hvars
      rw [← hfm] at hn
      obtain ⟨it, hit, hf⟩ := List.mem_filterMap.mp hn
      cases it with
      | var m =>
        simp at hf
        rw [hf] at hit
        exact hit
      | lit s => cases hf
    obtain ⟨e, he⟩ := renderTpl_strict_missing items props n hmem hmissing
    have hex : FileSystem.pathExists fs raw_filename = true := by
      rw [FileSystem.pathExists, hfile]
    refine ⟨e, ?_⟩
    simp [execute_handlebars_templating, hparse, hex,
      Handlebars.register_template_file, hfile, hc, Handlebars.set_strict_mode,
      Handlebars.new, Handlebars.render, he]

/-- C1 witness: JSON `\x7b\x7d` with template `Hello, \x7b\x7bname\x7d\x7d!`
fails with `TemplateRenderFailed`. -/
theorem strict_missing_property_render_fails_witness :
    ∃ e, execute_handlebars_templating
      [("t.hbs", FsEntry.file "Hello, \x7b\x7bname\x7d\x7d!")] "\x7b\x7d" "t.hbs" =
      .error (Error.TemplateRenderFailed e "t.hbs") :=
  strict_missing_property_render_fails _ _ _ _ (Json.obj []) ["name"] "name"
    rfl rfl rfl (by simp) rfl

/-- C2: whenever the pipeline succeeds, `main` writes the rendered string
followed by exactly one newline to standard output and exits 0; the
pipeline result itself carries no trailing modification. -/
theorem success_prints_rendered_with_newline
    (fs : FileSystem) (raw_props raw_filename : String) (rest : List String)
    (data : String)
    (h : execute_handlebars_templating fs raw_props raw_filename = .ok data) :
    mainRun fs (raw_props :: raw_filename :: rest) =
      { stdout := data ++ "\n", stderr := "", exitCode := 0 } := by
  simp [mainRun, h]

/-- C2 witness: JSON `\x7b"name":"World"\x7d` with template
`Hello, \x7b\x7bname\x7d\x7d!` produces `Hello, World!` plus a newline on
standard output and exit code 0. -/
theorem success_prints_rendered_with_newline_witness :
    mainRun [("t.hbs", FsEntry.file "Hello, \x7b\x7bname\x7d\x7d!")]
      ["\x7b\"name\":\"World\"\x7d", "t.hbs"] =
      { stdout := "Hello, World!\n", stderr := "", exitCode := 0 } :=
  success_prints_rendered_with_newline _ _ _ [] "Hello, World!" rfl

/-- C3: if the properties text fails to parse as JSON, the pipeline fails
with `PropsInvalidJson` regardless of the template argument and of the
filesystem — the JSON parse happens before the file-existence check. -/
theorem invalid_json_takes_precedence
    (fs : FileSystem) (raw_props raw_filename e : String)
    (h : Json.from_str raw_props = .error e) :
    execute_handlebars_templating fs raw_props raw_filename =
      .error (.PropsInvalidJson e) := by
  simp [execute_handlebars_templating, h]

/-- C3 witness: the properties text `not-json` fails with `PropsInvalidJson`
even though the template path is also absent from the filesystem. -/
theorem invalid_json_takes_precedence_witness :
    Json.from_str "not-json" = .error "expected value" ∧
    execute_handlebars_templating [] "not-json" "/does/not/exist" =
      .error (.PropsInvalidJson "expected value") :=
  ⟨rfl, invalid_json_takes_precedence [] "not-json" "/does/not/exist" "expected value" rfl⟩

/-- C4: valid JSON plus a template path with no filesystem entry fails with
`TemplateNotFound`, and the user-visible message contains the path. -/
theorem missing_template_fails_not_found
    (fs : FileSystem) (raw_props raw_filename : String) (props : Json)
    (hparse : Json.from_str raw_props = .ok props)
    (habsent : FileSystem.entry fs raw_filename = .absent) :
    execute_handlebars_templating fs raw_props raw_filename =
      .error (.TemplateNotFound raw_filename)
    ∧ ∃ a b, Error.display (.TemplateNotFound raw_filename) =
        a ++ raw_filename ++ b := by
  have hex : FileSystem.pathExists fs raw_filename = false := by
    rw [FileSystem.pathExists, habsent]
  constructor
  · simp [execute_handlebars_templating, hparse, hex]
  · exact ⟨"Unable to read template from " ++ squoteStr, squoteStr ++ ".",
      by simp [Error.display, String.append_assoc]⟩

/-- C4 witness: JSON `\x7b\x7d` with the absent path `/does/not/exist`
fails with `TemplateNotFound`, whose display contains the path. -/
theorem missing_template_fails_not_found_witness :
    execute_handlebars_templating [] "\x7b\x7d" "/does/not/exist" =
      .error (.TemplateNotFound "/does/not/exist")
    ∧ ∃ a b, Error.display (.TemplateNotFound "/does/not/exist") =
        a ++ "/does/not/exist" ++ b :=
  missing_template_fails_not_found [] "\x7b\x7d" "/does/not/exist" (Json.obj []) rfl rfl

/-- C5: valid JSON plus an existing template file whose contents fail to
compile makes the pipeline fail with `TemplateInvalid`, whose display
carries the path and the engine diagnostic. -/
theorem invalid_template_fails_template_invalid
    (fs : FileSystem) (raw_props raw_filename contents e : String) (props : Json)
    (hparse : Json.from_str raw_props = .ok props)
    (hfile : FileSystem.entry fs raw_filename = .file contents)
    (hcompile : compileTemplate contents = .error e) :
    execute_handlebars_templating fs raw_props raw_filename =
      .error (.TemplateInvalid e raw_filename)
    ∧ ∃ a b, Error.display (.TemplateInvalid e raw_filename) =
        a ++ raw_filename ++ b ++ e := by
  have hex : FileSystem.pathExists fs raw_filename = true := by
    rw [FileSystem.pathExists, hfile]
  constructor
  · simp [execute_handlebars_templating, hparse, hex,
      Handlebars.register_template_file, hfile, hcompile]
  · exact ⟨"File at " ++ squoteStr,
      squoteStr ++ " was not a valid handlebars template: ",
      by simp [Error.display, String.append_assoc]⟩

/-- C5 witness: the existing template file `Hello \x7b\x7bname` (opened
expression never closed) fails with `TemplateInvalid`. -/
theorem invalid_template_fails_template_invalid_witness :
    execute_handlebars_templating [("t.hbs", FsEntry.file "Hello \x7b\x7bname")]
      "\x7b\x7d" "t.hbs" =
      .error (.TemplateInvalid
        "invalid handlebars syntax: expression is never closed" "t.hbs")
    ∧ ∃ a b, Error.display (.TemplateInvalid
        "invalid handlebars syntax: expression is never closed" "t.hbs") =
        a ++ "t.hbs" ++ b ++ "invalid handlebars syntax: expression is never closed" :=
  invalid_template_fails_template_invalid _ "\x7b\x7d" "t.hbs"
    "Hello \x7b\x7bname" "invalid handlebars syntax: expression is never closed"
    (Json.obj []) rfl rfl rfl

/-- C6: every run either prints the full rendered string plus one newline
to standard output with empty standard error and exit code 0, or writes
nothing to standard output, exactly one newline-terminated message to
standard error, and exits 1. -/
theorem output_is_all_or_nothing (fs : FileSystem) (args : List String) :
    (∃ p f rest data, args = p :: f :: rest
      ∧ execute_handlebars_templating fs p f = .ok data
      ∧ mainRun fs args = { stdout := data ++ "\n", stderr := "", exitCode := 0 })
    ∨ ((mainRun fs args).stdout = "" ∧ (mainRun fs args).exitCode = 1
      ∧ ∃ msg, (mainRun fs args).stderr = msg ++ "\n") := by
  match args with
  | [] => exact Or.inr ⟨rfl, rfl, USAGE, rfl⟩
  | [a] => exact Or.inr ⟨rfl, rfl, USAGE, rfl⟩
  | p :: f :: rest =>
    cases h : execute_handlebars_templating fs p f with
    | ok data =>
      exact Or.inl ⟨p, f, rest, data, rfl, h, by simp [mainRun, h]⟩
    | error err =>
      refine Or.inr ?_
      refine ⟨?_, ?_, Error.display err, ?_⟩ <;> simp [mainRun, h]

/-- C7: with fewer than two arguments — and in particular for the single
argument `--help` — `main` prints the usage text to standard error and
exits 1; the two cases are not distinguished. -/
theorem usage_on_missing_args_and_help (fs : FileSystem) (args : List String)
    (h : args.length < 2) :
    mainRun fs args = { stdout := "", stderr := USAGE ++ "\n", exitCode := 1 }
    ∧ mainRun fs ["--help"] =
        { stdout := "", stderr := USAGE ++ "\n", exitCode := 1 } := by
  refine ⟨?_, rfl⟩
  match args with
  | [] => rfl
  | [a] => rfl
  | a :: b :: r => simp [List.length_cons] at h; omega

/-- C7 witness: zero arguments and the single argument `--help` both print
the usage text to standard error and exit 1. -/
theorem usage_on_missing_args_and_help_witness :
    mainRun [] [] = { stdout := "", stderr := USAGE ++ "\n", exitCode := 1 }
    ∧ mainRun [] ["--help"] =
        { stdout := "", stderr := USAGE ++ "\n", exitCode := 1 } :=
  usage_on_missing_args_and_help [] [] (by simp)

/-- C8: determinism — two invocations with equal properties text, equal
template path, and the same template file entry produce the same result,
whatever else the two filesystems contain. -/
theorem pipeline_deterministic (fs1 fs2 : FileSystem) (p1 p2 f1 f2 : String)
    (hp : p1 = p2) (hf : f1 = f2)
    (hentry : FileSystem.entry fs1 f1 = FileSystem.entry fs2 f2) :
    execute_handlebars_templating fs1 p1 f1 =
      execute_handlebars_templating fs2 p2 f2 := by
  subst hp
  subst hf
  simp only [execute_handlebars_templating, FileSystem.pathExists,
    Handlebars.register_template_file]
  rw [hentry]

/-- C8 witness: the same props and template file entry give byte-identical
results over two different filesystems. -/
theorem pipeline_deterministic_witness :
    execute_handlebars_templating [("t.hbs", FsEntry.file "Hello, \x7b\x7bname\x7d\x7d!")]
      "\x7b\"name\":\"World\"\x7d" "t.hbs" =
    execute_handlebars_templating
      [("other", FsEntry.file "ignored"), ("t.hbs", FsEntry.file "Hello, \x7b\x7bname\x7d\x7d!")]
      "\x7b\"name\":\"World\"\x7d" "t.hbs" :=
  pipeline_deterministic _ _ _ _ _ _ rfl rfl rfl

/-- C9: a path that exists but is not a readable regular file (a directory,
for instance) passes the existence guard and fails at the compile step with
`TemplateInvalid`, never with `TemplateNotFound`. -/
theorem existing_unreadable_path_fails_template_invalid
    (fs : FileSystem) (raw_props raw_filename : String) (props : Json)
    (hparse : Json.from_str raw_props = .ok props)
    (hdir : FileSystem.entry fs raw_filename = .unreadable) :
    execute_handlebars_templating fs raw_props raw_filename =
      .error (.TemplateInvalid templateReadError raw_filename)
    ∧ ∀ p, execute_handlebars_templating fs raw_props raw_filename ≠
        .error (.TemplateNotFound p) := by
  have hex : FileSystem.pathExists fs raw_filename = true := by
    rw [FileSystem.pathExists, hdir]
  have hmain : execute_handlebars_templating fs raw_props raw_filename =
      .error (.TemplateInvalid templateReadError raw_filename) := by
    simp [execute_handlebars_templating, hparse, hex,
      Handlebars.register_template_file, hdir]
  exact ⟨hmain, fun p => by simp [hmain]⟩

/-- C9 witness: JSON `\x7b\x7d` with a path that exists but is unreadable
fails with `TemplateInvalid` and not with `TemplateNotFound`. -/
theorem existing_unreadable_path_fails_template_invalid_witness :
    execute_handlebars_templating [("somedir", FsEntry.unreadable)] "\x7b\x7d" "somedir" =
      .error (.TemplateInvalid templateReadError "somedir")
    ∧ ∀ p, execute_handlebars_templating [("somedir", FsEntry.unreadable)] "\x7b\x7d" "somedir" ≠
        .error (.TemplateNotFound p) :=
  existing_unreadable_path_fails_template_invalid _ "\x7b\x7d" "somedir" (Json.obj []) rfl rfl

/-- C10: with two or more arguments, `--help` in first position is treated
as the properties text and fails with `PropsInvalidJson` rather than
printing usage; arguments beyond the first two are ignored. -/
theorem help_with_more_args_is_props
    (fs : FileSystem) (second : String) (rest : List String) :
    (∀ p f, mainRun fs (p :: f :: rest) = mainRun fs [p, f])
    ∧ execute_handlebars_templating fs "--help" second =
        .error (.PropsInvalidJson "expected digits after minus sign")
    ∧ mainRun fs ("--help" :: second :: rest) =
        { stdout := "",
          stderr := Error.display (.PropsInvalidJson "expected digits after minus sign") ++ "\n",
          exitCode := 1 } := by
  have hexec : execute_handlebars_templating fs "--help" second =
      .error (.PropsInvalidJson "expected digits after minus sign") := by
    have hparse : Json.from_str "--help" = .error "expected digits after minus sign" := rfl
    simp [execute_handlebars_templating, hparse]
  exact ⟨fun p f => rfl, hexec, by simp [mainRun, hexec]⟩

